import Mathlib

/-!
Shallow embedding of the order lifecycle layer of the `api-paypal` repository:
the order schemas (`paypal_api/schemas/order_schemas.py`,
`paypal_api/schemas/paypal_schemas.py`), the order repository
(`paypal_api/repositories/order_repository.py`), the provider translator
(`paypal_api/services/paypal/paypal_orders_service.py`), the order service
(`paypal_api/services/order_service.py`) and the vault-token order endpoint
(`paypal_api/api/v1/endpoints/orders.py`).

Python exceptions are modelled as an explicit error type and fallible code as
`Except PyErr`.  Decimal values are modelled as exact rationals, datetimes as
naturals, and the SQLAlchemy session as an in-memory list of rows.
-/

/-- Python exceptions that the embedded code can raise.  `domainError` covers
the `DomainException` hierarchy of `core/exceptions.py` (carrying the
`error_code` and `message` fields); `validationError` stands for pydantic's
`ValidationError`; the remaining constructors are Python builtins. -/
inductive PyErr where
  | attributeError (name : String)
  | keyError (key : String)
  | valueError (msg : String)
  | validationError (msg : String)
  | domainError (error_code : String) (message : String)
deriving Repr, DecidableEq

/-- `InvalidAmountException` from `core/exceptions.py` (error code
`INVALID_AMOUNT`).  It is defined in the repository but never raised. -/
def InvalidAmountException (amount : ℚ) : PyErr :=
  .domainError "INVALID_AMOUNT" ("Monto " ++ toString amount ++ " es inválido")

/-- `PayPalCommunicationException` from `core/exceptions.py`. -/
def PayPalCommunicationException (original_error : String) : PyErr :=
  .domainError "PAYPAL_COMMUNICATION_ERROR"
    ("Error de comunicación con PayPal: " ++ original_error)

/-- `str(e)` for the modelled exceptions: `DomainException.__str__` yields the
message; for builtins we keep a short canonical rendering. -/
def PyErr.str : PyErr → String
  | .attributeError n => "AttributeError: " ++ n
  | .keyError k => "KeyError: " ++ k
  | .valueError m => m
  | .validationError m => m
  | .domainError _ m => m

/-- `OrderIntent` enum (`schemas/order_schemas.py`). -/
inductive OrderIntent where
  | CAPTURE
  | AUTHORIZE
deriving Repr, DecidableEq

def OrderIntent.value : OrderIntent → String
  | .CAPTURE => "CAPTURE"
  | .AUTHORIZE => "AUTHORIZE"

/-- Coercion of a string into the `OrderIntent` enum, as pydantic performs on
model construction; `none` when the string is not a member. -/
def OrderIntent.parse (s : String) : Option OrderIntent :=
  if s = "CAPTURE" then some .CAPTURE
  else if s = "AUTHORIZE" then some .AUTHORIZE
  else none

/-- `OrderStatus` enum (identical in `order_schemas.py` and
`paypal_schemas.py`). -/
inductive OrderStatus where
  | CREATED
  | SAVED
  | APPROVED
  | VOIDED
  | COMPLETED
  | PAYER_ACTION_REQUIRED
deriving Repr, DecidableEq

def OrderStatus.value : OrderStatus → String
  | .CREATED => "CREATED"
  | .SAVED => "SAVED"
  | .APPROVED => "APPROVED"
  | .VOIDED => "VOIDED"
  | .COMPLETED => "COMPLETED"
  | .PAYER_ACTION_REQUIRED => "PAYER_ACTION_REQUIRED"

def OrderStatus.parse (s : String) : Option OrderStatus :=
  if s = "CREATED" then some .CREATED
  else if s = "SAVED" then some .SAVED
  else if s = "APPROVED" then some .APPROVED
  else if s = "VOIDED" then some .VOIDED
  else if s = "COMPLETED" then some .COMPLETED
  else if s = "PAYER_ACTION_REQUIRED" then some .PAYER_ACTION_REQUIRED
  else none

/-- `OrderStatus(x)` as called by the translator: raises `ValueError` when the
argument is `None` or not a member of the enum. -/
def OrderStatus.pyCall (s : Option String) : Except PyErr OrderStatus :=
  match s with
  | none => .error (.valueError "None is not a valid OrderStatus")
  | some v =>
    match OrderStatus.parse v with
    | some st => .ok st
    | none => .error (.valueError (v ++ " is not a valid OrderStatus"))

/-- `CaptureStatus` enum (`schemas/paypal_schemas.py`). -/
inductive CaptureStatus where
  | COMPLETED
  | DECLINED
  | PARTIALLY_REFUNDED
  | PENDING
  | REFUNDED
deriving Repr, DecidableEq

def CaptureStatus.parse (s : String) : Option CaptureStatus :=
  if s = "COMPLETED" then some .COMPLETED
  else if s = "DECLINED" then some .DECLINED
  else if s = "PARTIALLY_REFUNDED" then some .PARTIALLY_REFUNDED
  else if s = "PENDING" then some .PENDING
  else if s = "REFUNDED" then some .REFUNDED
  else none

/-- `CaptureStatus(x)`: `ValueError` on `None` or a non-member string. -/
def CaptureStatus.pyCall (s : Option String) : Except PyErr CaptureStatus :=
  match s with
  | none => .error (.valueError "None is not a valid CaptureStatus")
  | some v =>
    match CaptureStatus.parse v with
    | some st => .ok st
    | none => .error (.valueError (v ++ " is not a valid CaptureStatus"))

/-- Python truthiness of an optional string (`None` and `""` are falsy). -/
def truthyStr : Option String → Bool
  | none => false
  | some s => !s.isEmpty

/-- Python truthiness of an optional list (`None` and `[]` are falsy). -/
def truthyList {α : Type} : Option (List α) → Bool
  | none => false
  | some l => !l.isEmpty

/-- `AmountRequest` (`schemas/order_schemas.py` lines 22-24). -/
structure AmountRequest where
  currency_code : String
  value : ℚ
deriving Repr, DecidableEq

/-- pydantic validation performed when an `AmountRequest` is constructed:
`currency_code` defaults to "USD" and is otherwise unconstrained; `value` is
declared `Field(..., gt=0)`, so any value `≤ 0` raises a pydantic
`ValidationError`.  No path raises `InvalidAmountException`. -/
def AmountRequest.validate (currency_code : String) (value : ℚ) :
    Except PyErr AmountRequest :=
  if 0 < value then .ok { currency_code := currency_code, value := value }
  else .error (.validationError "value: ensure this value is greater than 0")

/-- `ItemRequest` (`schemas/order_schemas.py`). -/
structure ItemRequest where
  name : String
  quantity : String
  unit_amount : AmountRequest
  description : Option String := none
  category : Option String := some "PHYSICAL_GOODS"
deriving Repr, DecidableEq

/-- `ShippingAddressRequest` (`schemas/order_schemas.py`). -/
structure ShippingAddressRequest where
  address_line_1 : String
  address_line_2 : Option String := none
  admin_area_1 : Option String := none
  admin_area_2 : String
  postal_code : String
  country_code : String
deriving Repr, DecidableEq

/-- `ShippingRequest` (`schemas/order_schemas.py`). -/
structure ShippingRequest where
  name : Option String := none
  address : ShippingAddressRequest
deriving Repr, DecidableEq

/-- `OrderCreateRequest` (`schemas/order_schemas.py`). -/
structure OrderCreateRequest where
  intent : OrderIntent := .CAPTURE
  reference_id : Option String := none
  description : Option String := none
  amount : AmountRequest
  items : Option (List ItemRequest) := none
  shipping : Option ShippingRequest := none
  return_url : String
  cancel_url : String
  payer_email : Option String := none
deriving Repr, DecidableEq

/-- `OrderCaptureRequest` (`schemas/order_schemas.py`). -/
structure OrderCaptureRequest where
  note_to_payer : Option String := none
  final_capture : Bool := true
deriving Repr, DecidableEq

/-- `LinkResponse` — the `{href, rel, method}` triple used both by
`order_schemas.py` and `paypal_schemas.py`. -/
structure LinkResponse where
  href : String
  rel : String
  method : String
deriving Repr, DecidableEq

/-- `PayerInfo` (`schemas/order_schemas.py`). -/
structure PayerInfo where
  payer_id : Option String := none
  email_address : Option String := none
deriving Repr, DecidableEq

/-- `OrderResponse` (`schemas/order_schemas.py`): the local API response
schema.  Dates are modelled as naturals. -/
structure OrderResponse where
  id : String
  status : OrderStatus
  intent : OrderIntent
  amount : ℚ
  currency : String
  reference_id : Option String := none
  description : Option String := none
  approval_url : Option String := none
  links : Option (List LinkResponse) := none
  payer : Option PayerInfo := none
  created_at : ℕ
  updated_at : Option ℕ := none
  approved_at : Option ℕ := none
deriving Repr, DecidableEq

/-- `OrderListResponse` (`schemas/order_schemas.py`). -/
structure OrderListResponse where
  orders : List OrderResponse
  total_items : ℕ
  total_pages : ℕ
  current_page : ℕ
  page_size : ℕ
deriving Repr, DecidableEq

/-- `CaptureResponse` (`schemas/order_schemas.py`): the capture response the
order service returns to API callers. -/
structure CaptureResponse where
  capture_id : String
  status : String
  amount : ℚ
  currency : String
  final_capture : Bool
  created_at : ℕ
deriving Repr, DecidableEq

/-- A duck-typed attribute slot of a provider SDK object: the attribute can be
absent (reading it raises `AttributeError`) or present with an optional value
(`given none` models an attribute whose value is `None`). -/
inductive PyAttr (α : Type) where
  | absent
  | given (v : Option α)
deriving Repr, DecidableEq

/-- Attribute read `obj.name`: `AttributeError` when the slot is absent. -/
def PyAttr.get {α : Type} (a : PyAttr α) (name : String) : Except PyErr (Option α) :=
  match a with
  | .absent => .error (.attributeError name)
  | .given v => .ok v

/-- `hasattr(obj, name)`. -/
def PyAttr.hasattr {α : Type} : PyAttr α → Bool
  | .absent => false
  | .given _ => true

/-- `obj.name if hasattr(obj, "name") else None`. -/
def PyAttr.guarded {α : Type} : PyAttr α → Option α
  | .absent => none
  | .given v => v

/-- `MoneyResponse` (`schemas/paypal_schemas.py`): both fields are required
strings. -/
structure MoneyResponse where
  currency_code : String
  value : String
deriving Repr, DecidableEq

/-- pydantic construction of `MoneyResponse`: passing `None` for either
required field raises `ValidationError`. -/
def MoneyResponse.build (currency_code value : Option String) :
    Except PyErr MoneyResponse :=
  match currency_code, value with
  | some c, some v => .ok { currency_code := c, value := v }
  | _, _ => .error (.validationError "MoneyResponse: field required")

/-- `SellerProtectionResponse` (`schemas/paypal_schemas.py`). -/
structure SellerProtectionResponse where
  status : String
  dispute_categories : List String
deriving Repr, DecidableEq

def SellerProtectionResponse.build (status : Option String)
    (dispute_categories : List String) : Except PyErr SellerProtectionResponse :=
  match status with
  | some s => .ok { status := s, dispute_categories := dispute_categories }
  | none => .error (.validationError "SellerProtectionResponse: status field required")

/-- `SellerReceivableBreakdownResponse` (`schemas/paypal_schemas.py`), with
the three money fields the translator actually populates. -/
structure SellerReceivableBreakdownResponse where
  gross_amount : MoneyResponse
  paypal_fee : MoneyResponse
  net_amount : MoneyResponse
deriving Repr, DecidableEq

def LinkResponse.build (href rel method : Option String) :
    Except PyErr LinkResponse :=
  match href, rel, method with
  | some h, some r, some m => .ok { href := h, rel := r, method := m }
  | _, _, _ => .error (.validationError "LinkResponse: field required")

/-- Opaque `Dict[str, Any]` payloads that the translator merely passes
through. -/
abbrev AnyDict := List (String × String)

/-- `paypal_schemas.CaptureResponse`: the translated capture record. -/
structure PaypalSchemas.CaptureResponse where
  status : CaptureStatus
  status_details : Option AnyDict := none
  id : String
  amount : MoneyResponse
  invoice_id : Option String := none
  custom_id : Option String := none
  network_transaction_reference : Option AnyDict := none
  seller_protection : Option SellerProtectionResponse := none
  final_capture : Option Bool := none
  seller_receivable_breakdown : Option SellerReceivableBreakdownResponse := none
  disbursement_mode : Option String := none
  links : List LinkResponse := []
  processor_response : Option AnyDict := none
  create_time : Option String := none
  update_time : Option String := none
deriving Repr, DecidableEq

/-- `OrderCreateResponse` (`schemas/paypal_schemas.py`): the translator's
output schema.  `order_id` and `status` are the only required fields. -/
structure OrderCreateResponse where
  order_id : String
  status : OrderStatus
  payment_source : Option String := none
  payer_email : Option String := none
  payer_id : Option String := none
  total_amount : Option String := none
  currency_code : Option String := none
  create_time : Option String := none
  approval_url : Option String := none
  captures : List PaypalSchemas.CaptureResponse := []
  links : List LinkResponse := []
deriving Repr, DecidableEq

/-! ### The provider SDK object graph

`PaypalOrdersService._process_order_response` receives an SDK object (typed
`Any` in the source) and probes it attribute by attribute, partly guarded by
`hasattr`.  Each expected attribute is modelled as a `PyAttr` slot. -/

structure SdkMoney where
  currency_code : PyAttr String
  value : PyAttr String
deriving Repr, DecidableEq

structure SdkSellerProtection where
  status : PyAttr String
  dispute_categories : PyAttr (List String)
deriving Repr, DecidableEq

structure SdkBreakdown where
  gross_amount : PyAttr SdkMoney
  paypal_fee : PyAttr SdkMoney
  net_amount : PyAttr SdkMoney
deriving Repr, DecidableEq

structure SdkLink where
  href : PyAttr String
  rel : PyAttr String
  method : PyAttr String
deriving Repr, DecidableEq

structure SdkCapture where
  status : PyAttr String
  status_details : PyAttr AnyDict
  id : PyAttr String
  amount : PyAttr SdkMoney
  invoice_id : PyAttr String
  custom_id : PyAttr String
  network_transaction_reference : PyAttr AnyDict
  seller_protection : PyAttr SdkSellerProtection
  final_capture : PyAttr Bool
  seller_receivable_breakdown : PyAttr SdkBreakdown
  disbursement_mode : PyAttr String
  links : PyAttr (List SdkLink)
  processor_response : PyAttr AnyDict
  create_time : PyAttr String
  update_time : PyAttr String
deriving Repr, DecidableEq

structure SdkPayments where
  captures : PyAttr (List SdkCapture)
deriving Repr, DecidableEq

structure SdkPurchaseUnit where
  payments : PyAttr SdkPayments
deriving Repr, DecidableEq

structure SdkPayer where
  email_address : PyAttr String
  payer_id : PyAttr String
deriving Repr, DecidableEq

/-- The `payment_source` SDK object; `paypal` / `card` carry opaque wallet
objects whose only observed property is truthiness, so they are modelled as
`Unit` values. -/
structure SdkPaymentSource where
  paypal : PyAttr Unit
  card : PyAttr Unit
deriving Repr, DecidableEq

/-- The top-level SDK order object handed to the translator. -/
structure SdkOrder where
  id : PyAttr String
  status : PyAttr String
  payer : PyAttr SdkPayer
  payment_source : PyAttr SdkPaymentSource
  purchase_units : PyAttr (List SdkPurchaseUnit)
  links : PyAttr (List SdkLink)
  create_time : PyAttr String
deriving Repr, DecidableEq

/-- Attribute read `m.f` on a value that may be `None` (e.g.
`breakdown.gross_amount.currency_code` when `gross_amount` is `None`):
`AttributeError` either way. -/
def SdkMoney.read (m : Option SdkMoney) (f : SdkMoney → PyAttr String)
    (name : String) : Except PyErr (Option String) :=
  match m with
  | none => .error (.attributeError name)
  | some mm => (f mm).get name

/-- The per-capture translation inside `_process_order_response`
(`paypal_orders_service.py` lines 106-179): seller protection, fee breakdown
and links first, then the `CaptureResponse(...)` construction. -/
def PaypalOrdersService.process_capture (capture : SdkCapture) :
    Except PyErr PaypalSchemas.CaptureResponse := do
  -- seller_protection (lines 108-113): unguarded attribute access, truthiness
  -- check, then a pydantic construction with a required `status`.
  let sp? ← capture.seller_protection.get "seller_protection"
  let seller_protection ←
    match sp? with
    | some sp => do
      let st ← sp.status.get "status"
      let dc ← sp.dispute_categories.get "dispute_categories"
      let spr ← SellerProtectionResponse.build st (dc.getD [])
      pure (some spr)
    | none => pure none
  -- seller_receivable_breakdown (lines 116-147): unguarded accesses down to
  -- the money leaves; each `MoneyResponse` requires both fields.
  let sb? ← capture.seller_receivable_breakdown.get "seller_receivable_breakdown"
  let seller_breakdown ←
    match sb? with
    | some b => do
      let ga ← b.gross_amount.get "gross_amount"
      let gross ← MoneyResponse.build
        (← SdkMoney.read ga SdkMoney.currency_code "currency_code")
        (← SdkMoney.read ga SdkMoney.value "value")
      let pf ← b.paypal_fee.get "paypal_fee"
      let fee ← MoneyResponse.build
        (← SdkMoney.read pf SdkMoney.currency_code "currency_code")
        (← SdkMoney.read pf SdkMoney.value "value")
      let na ← b.net_amount.get "net_amount"
      let net ← MoneyResponse.build
        (← SdkMoney.read na SdkMoney.currency_code "currency_code")
        (← SdkMoney.read na SdkMoney.value "value")
      pure (some { gross_amount := gross, paypal_fee := fee, net_amount := net :
        SellerReceivableBreakdownResponse })
    | none => pure none
  -- links (lines 150-157).
  let ls? ← capture.links.get "links"
  let links ←
    if truthyList ls? then
      (ls?.getD []).mapM fun l => do
        LinkResponse.build (← l.href.get "href") (← l.rel.get "rel")
          (← l.method.get "method")
    else pure []
  -- the CaptureResponse construction (lines 159-178); `status`, `id` and
  -- `amount` are required, the rest are `hasattr`-guarded pass-throughs.
  let status ← CaptureStatus.pyCall (← capture.status.get "status")
  let id? ← capture.id.get "id"
  let am ← capture.amount.get "amount"
  let amount ← MoneyResponse.build
    (← SdkMoney.read am SdkMoney.currency_code "currency_code")
    (← SdkMoney.read am SdkMoney.value "value")
  match id? with
  | none => .error (.validationError "CaptureResponse: id field required")
  | some id =>
    pure {
      status := status
      status_details := capture.status_details.guarded
      id := id
      amount := amount
      invoice_id := capture.invoice_id.guarded
      custom_id := capture.custom_id.guarded
      network_transaction_reference := capture.network_transaction_reference.guarded
      seller_protection := seller_protection
      final_capture := capture.final_capture.guarded
      seller_receivable_breakdown :=
        if capture.seller_receivable_breakdown.hasattr then seller_breakdown else none
      disbursement_mode := capture.disbursement_mode.guarded
      links := links
      processor_response := capture.processor_response.guarded
      create_time := capture.create_time.guarded
      update_time := capture.update_time.guarded }

/-- The body of the `try` block of
`PaypalOrdersService._process_order_response` (`paypal_orders_service.py`
lines 69-210). -/
def PaypalOrdersService.tryProcess (paypal_response : SdkOrder) :
    Except PyErr OrderCreateResponse := do
  -- lines 71-72: order_id = paypal_response.id; status = OrderStatus(paypal_response.status)
  let order_id? ← paypal_response.id.get "id"
  let status ← OrderStatus.pyCall (← paypal_response.status.get "status")
  -- payer (lines 75-79): truthiness check, then unguarded reads.
  let payer? ← paypal_response.payer.get "payer"
  let (payer_email, payer_id) ←
    match payer? with
    | some p => do
      let e ← p.email_address.get "email_address"
      let i ← p.payer_id.get "payer_id"
      pure (e, i)
    | none => pure ((none : Option String), (none : Option String))
  -- payment_source (lines 82-89).
  let ps? ← paypal_response.payment_source.get "payment_source"
  let payment_source ←
    match ps? with
    | some ps => do
      let pp ← ps.paypal.get "paypal"
      match pp with
      | some _ => pure (some "paypal")
      | none => do
        let cd ← ps.card.get "card"
        match cd with
        | some _ => pure (some "card")
        | none => pure (some "unknown")
    | none => pure (none : Option String)
  -- total_amount / currency_code (lines 92-99): the extraction is commented
  -- out in the source, so both stay None.
  let total_amount : Option String := none
  let currency_code : Option String := none
  -- captures (lines 102-179).
  let pu? ← paypal_response.purchase_units.get "purchase_units"
  let captures ←
    if truthyList pu? then
      (pu?.getD []).foldlM
        (fun (acc : List PaypalSchemas.CaptureResponse) unit => do
          let pay? ← unit.payments.get "payments"
          match pay? with
          | none => pure acc
          | some pay => do
            let caps? ← pay.captures.get "captures"
            if truthyList caps? then do
              let cs ← (caps?.getD []).mapM PaypalOrdersService.process_capture
              pure (acc ++ cs)
            else pure acc)
        []
    else pure []
  -- order links and approval url (lines 182-196).
  let ls? ← paypal_response.links.get "links"
  let order_links ←
    if truthyList ls? then
      (ls?.getD []).mapM fun l => do
        LinkResponse.build (← l.href.get "href") (← l.rel.get "rel")
          (← l.method.get "method")
    else pure []
  let approval_url := (order_links.find? fun l => l.rel == "approve").map (·.href)
  -- the OrderCreateResponse construction (lines 198-210): order_id is a
  -- required str, so a present-but-None id raises ValidationError here.
  match order_id? with
  | none => .error (.validationError "OrderCreateResponse: order_id field required")
  | some order_id =>
    pure {
      order_id := order_id
      status := status
      payment_source := payment_source
      payer_email := payer_email
      payer_id := payer_id
      total_amount := total_amount
      currency_code := currency_code
      create_time := paypal_response.create_time.guarded
      approval_url := approval_url
      captures := captures
      links := order_links }

/-- The minimal fallback response built in the `except` branch of
`_process_order_response` (lines 215-227). -/
def PaypalOrdersService.minimalResponse (order_id : String) : OrderCreateResponse :=
  { order_id := order_id
    status := .CREATED
    payment_source := none
    payer_email := none
    payer_id := none
    total_amount := none
    currency_code := none
    create_time := none
    approval_url := none
    captures := []
    links := [] }

/-- `PaypalOrdersService._process_order_response` (lines 59-227): the `try`
body, and on any exception the fallback
`OrderCreateResponse(order_id=paypal_response.id if hasattr(paypal_response, "id") else "unknown", status=OrderStatus.CREATED, ...)`.
When the `id` attribute is present but `None`, the fallback construction
itself raises a pydantic `ValidationError`, which propagates. -/
def PaypalOrdersService.process_order_response (paypal_response : SdkOrder) :
    Except PyErr OrderCreateResponse :=
  match PaypalOrdersService.tryProcess paypal_response with
  | .ok resp => .ok resp
  | .error _ =>
    let oid : Option String :=
      if paypal_response.id.hasattr then paypal_response.id.guarded else some "unknown"
    match oid with
    | some s => .ok (PaypalOrdersService.minimalResponse s)
    | none => .error (.validationError "OrderCreateResponse: order_id field required")

/-- The JSON blob stored in the `paypal_response` column.  The only read the
order service performs on it is `.get("links", [])`, with every link carrying
`href`, `rel` and `method`. -/
structure StoredResponse where
  links : List LinkResponse := []
deriving Repr, DecidableEq

/-- The `Order` row (`models/order.py`), restricted to the columns the order
service and repository read or write.  Dates are naturals; `Numeric` columns
are exact rationals. -/
structure Order where
  id : ℕ
  paypal_order_id : String
  customer_id : Option ℕ := none
  vault_payment_method_id : Option ℕ := none
  payer_id : Option String := none
  payer_email : Option String := none
  intent : String := "CAPTURE"
  status : String
  amount : ℚ
  currency : String := "USD"
  description : Option String := none
  reference_id : Option String := none
  return_url : Option String := none
  cancel_url : Option String := none
  approval_url : Option String := none
  approved_at : Option ℕ := none
  paypal_response : Option StoredResponse := none
  is_active : Bool := true
  created_at : ℕ := 0
  updated_at : Option ℕ := none
deriving Repr, DecidableEq

/-- The `Customer` row (`models/customer.py`), restricted to what the order
service uses. -/
structure Customer where
  id : ℕ
  paypal_customer_id : String
  email_address : String
  is_active : Bool := true
deriving Repr, DecidableEq

/-- The relational store behind the SQLAlchemy `Session`. -/
structure Database where
  orders : List Order
  customers : List Customer := []
deriving Repr, DecidableEq

/-- A value assigned through `setattr` in the repository update loops.  The
update dictionaries built by the order service only ever carry strings,
optional strings and response blobs; the remaining constructors cover the
other column types so that update data may name any column. -/
inductive FieldVal where
  | nat (n : ℕ)
  | optNat (n : Option ℕ)
  | str (s : String)
  | optStr (s : Option String)
  | rat (q : ℚ)
  | bool (b : Bool)
  | blob (r : StoredResponse)
deriving Repr, DecidableEq

/-- `hasattr(order, key)` for the modelled columns. -/
def Order.hasField (key : String) : Bool :=
  ["id", "paypal_order_id", "customer_id", "vault_payment_method_id",
   "payer_id", "payer_email", "intent", "status", "amount", "currency",
   "description", "reference_id", "return_url", "cancel_url", "approval_url",
   "approved_at", "paypal_response", "is_active", "created_at",
   "updated_at"].contains key

/-- `setattr(order, key, value)`: assigns the named column when the value fits
its type (the service only ever passes type-correct values; an ill-typed
assignment is modelled as a no-op). -/
def Order.setField (o : Order) (key : String) (v : FieldVal) : Order :=
  if key = "id" then
    match v with | .nat n => { o with id := n } | _ => o
  else if key = "paypal_order_id" then
    match v with | .str s => { o with paypal_order_id := s } | _ => o
  else if key = "customer_id" then
    match v with
    | .optNat n => { o with customer_id := n }
    | .nat n => { o with customer_id := some n }
    | _ => o
  else if key = "vault_payment_method_id" then
    match v with | .optNat n => { o with vault_payment_method_id := n } | _ => o
  else if key = "payer_id" then
    match v with
    | .str s => { o with payer_id := some s }
    | .optStr s => { o with payer_id := s }
    | _ => o
  else if key = "payer_email" then
    match v with
    | .str s => { o with payer_email := some s }
    | .optStr s => { o with payer_email := s }
    | _ => o
  else if key = "intent" then
    match v with | .str s => { o with intent := s } | _ => o
  else if key = "status" then
    match v with | .str s => { o with status := s } | _ => o
  else if key = "amount" then
    match v with | .rat q => { o with amount := q } | _ => o
  else if key = "currency" then
    match v with | .str s => { o with currency := s } | _ => o
  else if key = "description" then
    match v with | .optStr s => { o with description := s } | _ => o
  else if key = "reference_id" then
    match v with | .optStr s => { o with reference_id := s } | _ => o
  else if key = "return_url" then
    match v with | .optStr s => { o with return_url := s } | _ => o
  else if key = "cancel_url" then
    match v with | .optStr s => { o with cancel_url := s } | _ => o
  else if key = "approval_url" then
    match v with | .optStr s => { o with approval_url := s } | _ => o
  else if key = "approved_at" then
    match v with | .optNat t => { o with approved_at := t } | _ => o
  else if key = "paypal_response" then
    match v with | .blob b => { o with paypal_response := some b } | _ => o
  else if key = "is_active" then
    match v with | .bool b => { o with is_active := b } | _ => o
  else if key = "created_at" then
    match v with | .nat t => { o with created_at := t } | _ => o
  else if key = "updated_at" then
    match v with | .optNat t => { o with updated_at := t } | _ => o
  else o

/-- The update loop shared by `OrderRepository.update` and
`OrderRepository.update_by_paypal_id` (`order_repository.py` lines 125-127 and
148-150): every key that exists on the model and is not `id` or
`paypal_order_id` is assigned. -/
def OrderRepository.applyUpdate (o : Order) (update_data : List (String × FieldVal)) : Order :=
  update_data.foldl
    (fun acc kv =>
      if Order.hasField kv.1 && !(kv.1 == "id") && !(kv.1 == "paypal_order_id") then
        acc.setField kv.1 kv.2
      else acc)
    o

/-- `query.filter(p).first()` followed by an in-place mutation of the found
row and `commit`: rewrites the first row satisfying `p` and reports it. -/
def updateFirst (p : Order → Bool) (f : Order → Order) :
    List Order → Option Order × List Order
  | [] => (none, [])
  | x :: t =>
    if p x then (some (f x), f x :: t)
    else
      let r := updateFirst p f t
      (r.1, x :: r.2)

def OrderRepository.get_by_id (db : Database) (order_id : ℕ) : Option Order :=
  db.orders.find? fun o => o.id == order_id

/-- `OrderRepository.get_by_paypal_order_id` (lines 55-58): a point lookup
with no `is_active` filter. -/
def OrderRepository.get_by_paypal_order_id (db : Database) (paypal_order_id : String) :
    Option Order :=
  db.orders.find? fun o => o.paypal_order_id == paypal_order_id

/-- `OrderRepository.update` (lines 117-138).  `now` models the server clock
feeding the `updated_at` `onupdate` default on commit. -/
def OrderRepository.update (db : Database) (order_id : ℕ)
    (update_data : List (String × FieldVal)) (now : ℕ) : Option Order × Database :=
  let r := updateFirst (fun o => o.id == order_id)
    (fun o => { OrderRepository.applyUpdate o update_data with updated_at := some now })
    db.orders
  (r.1, { db with orders := r.2 })

/-- `OrderRepository.update_by_paypal_id` (lines 140-161). -/
def OrderRepository.update_by_paypal_id (db : Database) (paypal_order_id : String)
    (update_data : List (String × FieldVal)) (now : ℕ) : Option Order × Database :=
  let r := updateFirst (fun o => o.paypal_order_id == paypal_order_id)
    (fun o => { OrderRepository.applyUpdate o update_data with updated_at := some now })
    db.orders
  (r.1, { db with orders := r.2 })

/-- `OrderRepository.soft_delete` (lines 163-180): flips `is_active` off on
the addressed row; `False` when no row matches. -/
def OrderRepository.soft_delete (db : Database) (order_id : ℕ) (now : ℕ) :
    Bool × Database :=
  let r := updateFirst (fun o => o.id == order_id)
    (fun o => { o with is_active := false, updated_at := some now })
    db.orders
  (r.1.isSome, { db with orders := r.2 })

/-- Descending insertion by `created_at`, modelling `ORDER BY created_at DESC`. -/
def insertByCreatedDesc (a : Order) : List Order → List Order
  | [] => [a]
  | b :: t =>
    if b.created_at ≤ a.created_at then a :: b :: t
    else b :: insertByCreatedDesc a t

def sortByCreatedDesc (l : List Order) : List Order :=
  l.foldr insertByCreatedDesc []

/-- `OrderRepository.list_orders` (lines 65-97): sort, optional filters
(`customer_id`/`is_active` compared against `None`, the string filters by
truthiness), then `count` before `offset/limit`. -/
def OrderRepository.list_orders (db : Database) (skip limit : ℕ)
    (customer_id : Option ℕ) (payer_id : Option String) (status : Option String)
    (intent : Option String) (is_active : Option Bool) : List Order × ℕ :=
  let q := sortByCreatedDesc db.orders
  let q := match customer_id with
    | some c => q.filter fun (o : Order) => o.customer_id == some c
    | none => q
  let q := if truthyStr payer_id then q.filter (fun o => o.payer_id == payer_id) else q
  let q := if truthyStr status then q.filter (fun o => some o.status == status) else q
  let q := if truthyStr intent then q.filter (fun o => some o.intent == intent) else q
  let q := match is_active with
    | some b => q.filter fun (o : Order) => o.is_active == b
    | none => q
  let total := q.length
  ((q.drop skip).take limit, total)

def CustomerRepository.get_by_email (db : Database) (email : String) : Option Customer :=
  db.customers.find? fun c => c.email_address == email

/-- The link/approval-url extraction block that `OrderService.get_order`
(lines 284-294) and `OrderService.list_orders` (lines 394-404) both inline:
walks `paypal_response.get("links", [])` without a break, so the last
`approve` link wins, and collects every link. -/
def OrderService.extract_links (o : Order) : Option String × List LinkResponse :=
  match o.paypal_response with
  | none => (none, [])
  | some pr =>
    pr.links.foldl
      (fun (acc : Option String × List LinkResponse) link =>
        ((if link.rel == "approve" then some link.href else acc.1),
         acc.2 ++ [link]))
      (none, [])

/-- The field values of the `OrderResponse(...)` construction shared verbatim
by `OrderService.get_order` (lines 296-313) and `OrderService.list_orders`
(lines 406-423), given the already-coerced status and intent enums. -/
def OrderService.response_of (o : Order) (st : OrderStatus) (it : OrderIntent) :
    OrderResponse :=
  { id := o.paypal_order_id
    status := st
    intent := it
    amount := o.amount
    currency := o.currency
    reference_id := o.reference_id
    description := o.description
    -- `approval_url=approval_url or order_db.approval_url`
    approval_url :=
      if truthyStr (OrderService.extract_links o).1 then (OrderService.extract_links o).1
      else o.approval_url
    links := some (OrderService.extract_links o).2
    payer :=
      if truthyStr o.payer_id || truthyStr o.payer_email then
        some { payer_id := o.payer_id, email_address := o.payer_email }
      else none
    created_at := o.created_at
    updated_at := o.updated_at
    approved_at := o.approved_at }

/-- The `OrderResponse(...)` construction itself: pydantic coerces the stored
`status`/`intent` strings into their enums (in field order) and raises
`ValidationError` when one is not a member. -/
def OrderService.to_order_response (o : Order) : Except PyErr OrderResponse :=
  match OrderStatus.parse o.status, OrderIntent.parse o.intent with
  | some st, some it => .ok (OrderService.response_of o st it)
  | none, _ => .error (.validationError "OrderResponse: status is not a valid OrderStatus")
  | some _, none => .error (.validationError "OrderResponse: intent is not a valid OrderIntent")

/-- The body of the inner `try` of the sync branch of `OrderService.get_order`
(lines 262-279).  Its first step is `self._make_paypal_request(...)`, but no
method of that name is defined on `OrderService` or anywhere else in the
repository, so the attribute lookup raises `AttributeError` before any
request is issued; everything after it (including the
`update_by_paypal_id` write) is unreachable. -/
def OrderService.sync_step (_db : Database) (_order_id : String) :
    Except PyErr (Order × Database) :=
  .error (.attributeError "_make_paypal_request")

/-- `OrderService.get_order` (lines 252-319). -/
def OrderService.get_order (db : Database) (order_id : String)
    (sync_with_paypal : Bool) : Except PyErr (Option OrderResponse) × Database :=
  match OrderRepository.get_by_paypal_order_id db order_id with
  | none => (.ok none, db)
  | some order_db =>
    -- sync branch: the inner `except Exception` logs the failure and falls
    -- through with the unmodified local row (lines 280-281).
    let s : Order × Database :=
      if sync_with_paypal then
        match OrderService.sync_step db order_id with
        | .ok r => r
        | .error _ => (order_db, db)
      else (order_db, db)
    match OrderService.to_order_response s.1 with
    | .ok resp => (.ok (some resp), s.2)
    | .error e => (.error e, s.2)

/-- `OrderService.capture_order` (lines 321-368).  After assembling
`capture_data`, line 332 evaluates `self._make_paypal_request`, which does
not exist on the class or in the codebase: the lookup raises
`AttributeError`, the outer `except` logs and re-raises it, and the
remainder of the method (the local status update and the `CaptureResponse`
extraction) is unreachable. -/
def OrderService.capture_order (db : Database) (order_id : String)
    (capture_request : Option OrderCaptureRequest) :
    Except PyErr CaptureResponse × Database :=
  let capture_data : List (String × String) :=
    match capture_request with
    | some cr =>
      match cr.note_to_payer with
      | some note => if note.isEmpty then [] else [("note_to_payer", note)]
      | none => []
    | none => []
  let provider : Except PyErr Empty :=
    .error (.attributeError "_make_paypal_request")
  match provider with
  | .error e =>
    let _ := capture_data
    let _ := order_id
    (.error e, db)
  | .ok x => nomatch x

/-- `OrderService.list_orders` (lines 370-437). -/
def OrderService.list_orders (db : Database) (page page_size : ℕ)
    (customer_id : Option ℕ) (status : Option String) :
    Except PyErr OrderListResponse := do
  let skip := (page - 1) * page_size
  let r := OrderRepository.list_orders db skip page_size customer_id none status
    none (some true)
  let order_responses ← r.1.mapM OrderService.to_order_response
  let total_pages := (r.2 + page_size - 1) / page_size
  pure {
    orders := order_responses
    total_items := r.2
    total_pages := total_pages
    current_page := page
    page_size := page_size }

/-- The money dict `{"currency_code": ..., "value": str(...)}` sent to the
provider.  `str(Decimal)` is modelled by the canonical rational rendering. -/
structure MoneyBody where
  currency_code : String
  value : String
deriving Repr, DecidableEq

def decimalStr (q : ℚ) : String := toString q

structure ItemBody where
  name : String
  unit_amount : MoneyBody
  quantity : String
  description : Option String
  category : Option String
deriving Repr, DecidableEq

structure ShippingBody where
  full_name : String
  address_line_1 : String
  address_line_2 : Option String
  admin_area_1 : Option String
  admin_area_2 : String
  postal_code : String
  country_code : String
deriving Repr, DecidableEq

structure PurchaseUnitBody where
  reference_id : String
  description : Option String
  amount : MoneyBody
  items : Option (List ItemBody) := none
  shipping : Option ShippingBody := none
deriving Repr, DecidableEq

structure ApplicationContextBody where
  return_url : String
  cancel_url : String
  brand_name : String
  landing_page : String
  user_action : String
deriving Repr, DecidableEq

/-- The request body `OrderService.create_order` assembles for the provider
client (`order_service.py` lines 136-191). -/
structure OrderCreateBody where
  intent : String
  purchase_units : List PurchaseUnitBody
  application_context : ApplicationContextBody
deriving Repr, DecidableEq

/-- Lines 136-184 of `OrderService.create_order`: purchase units (with
`reference_id or "default"`, optional items and shipping) and the fixed
application context. -/
def OrderService.build_create_body (order_request : OrderCreateRequest) :
    OrderCreateBody :=
  { intent := order_request.intent.value
    purchase_units := [{
      reference_id :=
        match order_request.reference_id with
        | some s => if s.isEmpty then "default" else s
        | none => "default"
      description := order_request.description
      amount := {
        currency_code := order_request.amount.currency_code
        value := decimalStr order_request.amount.value }
      items :=
        match order_request.items with
        | some l =>
          if l.isEmpty then none
          else some (l.map fun it => {
            name := it.name
            unit_amount := {
              currency_code := it.unit_amount.currency_code
              value := decimalStr it.unit_amount.value }
            quantity := it.quantity
            description := it.description
            category := it.category })
        | none => none
      shipping :=
        order_request.shipping.map fun sh => {
          full_name :=
            match sh.name with
            | some n => if n.isEmpty then "Destinatario" else n
            | none => "Destinatario"
          address_line_1 := sh.address.address_line_1
          address_line_2 := sh.address.address_line_2
          admin_area_1 := sh.address.admin_area_1
          admin_area_2 := sh.address.admin_area_2
          postal_code := sh.address.postal_code
          country_code := sh.address.country_code } }]
    application_context := {
      return_url := order_request.return_url
      cancel_url := order_request.cancel_url
      brand_name := "Tu Tienda"
      landing_page := "BILLING"
      user_action := "PAY_NOW" } }

/-- Observable interaction points of a create flow, used to state ordering
between the provider call and the local persistence write. -/
inductive CreateEvent where
  | providerCreate
  | persistOrder
deriving Repr, DecidableEq

/-- `OrderService.create_order` (lines 131-250).  The provider interaction
(`self.paypal_orders_service.create_order`, which returns an
`OrderCreateResponse` pydantic model) is abstracted as the function argument
`paypal_create`.  On a provider failure the outer `except` re-raises the same
exception (line 250) with nothing persisted.  On a provider success, line 195
evaluates `paypal_response.get("links", [])` — but `OrderCreateResponse` is a
pydantic `BaseModel` with no `get` method, so `AttributeError` is raised,
logged and re-raised; the customer lookup and the `order_repo.create` write on
line 224 are unreachable. -/
def OrderService.create_order (db : Database) (order_request : OrderCreateRequest)
    (paypal_create : OrderCreateBody → Except PyErr OrderCreateResponse) :
    Except PyErr OrderResponse × Database × List CreateEvent :=
  match paypal_create (OrderService.build_create_body order_request) with
  | .error e => (.error e, db, [.providerCreate])
  | .ok _paypal_response => (.error (.attributeError "get"), db, [.providerCreate])

/-- `VaultPaymentRequest` (`schemas/paypal_schemas.py` lines 161-165). -/
structure VaultPaymentRequest where
  payment_method_id : String
  amount : String
  currency : String := "USD"
  description : String
deriving Repr, DecidableEq

/-- The dict literal assigned to `order_response` in the vault-token endpoint
(`api/v1/endpoints/orders.py` lines 92-98): a locally fabricated placeholder
with hard-coded id `"123"` and status `"CREATED"`, discarding the provider's
result. -/
structure PlaceholderOrderBody where
  id : String
  status : String
  amount : String
  currency : String
  description : String
deriving Repr, DecidableEq

def create_order_with_vault_token_placeholder (vault_payment : VaultPaymentRequest) :
    PlaceholderOrderBody :=
  { id := "123"
    status := "CREATED"
    amount := vault_payment.amount
    currency := vault_payment.currency
    description := vault_payment.description }

/-- `PaypalOrdersService.create_order_with_vault_token` (lines 296-382):
passes a provider success through and wraps any failure in
`PayPalCommunicationException`.  The underlying SDK interaction is the
argument. -/
def PaypalOrdersService.create_order_with_vault_token
    (sdk_result : Except PyErr OrderCreateResponse) :
    Except PyErr OrderCreateResponse :=
  match sdk_result with
  | .ok r => .ok r
  | .error e =>
    .error (PayPalCommunicationException
      ("Error creando orden con vault token: " ++ e.str))

/-- Outcome of a FastAPI handler: a success envelope or an `HTTPException`. -/
inductive EndpointResult (α : Type) where
  | success (data : α)
  | httpError (status_code : ℕ) (detail : String)
deriving Repr, DecidableEq

/-- The `create_order_with_vault_token` endpoint (`orders.py` lines 64-112).
On a provider success the handler rebinds `order_response` to the placeholder
dict and then evaluates `order_response.id` for the success log (line 103); a
plain dict has no attribute `id`, so `AttributeError` is raised and the
generic `except Exception` handler answers HTTP 500.  On a
`PayPalCommunicationException` it answers HTTP 400 with `str(e)`. -/
def endpoint.create_order_with_vault_token (vault_payment : VaultPaymentRequest)
    (sdk_result : Except PyErr OrderCreateResponse) :
    EndpointResult PlaceholderOrderBody :=
  match PaypalOrdersService.create_order_with_vault_token sdk_result with
  | .ok _order_response =>
    let order_response := create_order_with_vault_token_placeholder vault_payment
    let _ := order_response
    EndpointResult.httpError 500 "Error interno del servidor"
  | .error e =>
    match e with
    | .domainError code msg =>
      if code == "PAYPAL_COMMUNICATION_ERROR" then EndpointResult.httpError 400 msg
      else EndpointResult.httpError 500 "Error interno del servidor"
    | _ => EndpointResult.httpError 500 "Error interno del servidor"

/-- A field-level update issued through the order store, as performed by the
capture and sync flows. -/
inductive UpdateOp where
  | byId (order_id : ℕ) (update_data : List (String × FieldVal)) (now : ℕ)
  | byPaypalId (paypal_order_id : String) (update_data : List (String × FieldVal)) (now : ℕ)
deriving Repr, DecidableEq

def applyUpdateOp (db : Database) (op : UpdateOp) : Database :=
  match op with
  | .byId oid d now => (OrderRepository.update db oid d now).2
  | .byPaypalId pid d now => (OrderRepository.update_by_paypal_id db pid d now).2

def applyUpdateOps (db : Database) (ops : List UpdateOp) : Database :=
  ops.foldl applyUpdateOp db

/-! ### Helper lemmas -/

theorem Order.setField_preserves_identity (o : Order) (key : String) (v : FieldVal)
    (h1 : key ≠ "id") (h2 : key ≠ "paypal_order_id") :
    (o.setField key v).id = o.id ∧
      (o.setField key v).paypal_order_id = o.paypal_order_id := by
  unfold Order.setField
  rw [if_neg h1, if_neg h2]
  by_cases hk0 : key = "customer_id"
  · rw [if_pos hk0]; cases v <;> exact ⟨rfl, rfl⟩
  rw [if_neg hk0]
  by_cases hk1 : key = "vault_payment_method_id"
  · rw [if_pos hk1]; cases v <;> exact ⟨rfl, rfl⟩
  rw [if_neg hk1]
  by_cases hk2 : key = "payer_id"
  · rw [if_pos hk2]; cases v <;> exact ⟨rfl, rfl⟩
  rw [if_neg hk2]
  by_cases hk3 : key = "payer_email"
  · rw [if_pos hk3]; cases v <;> exact ⟨rfl, rfl⟩
  rw [if_neg hk3]
  by_cases hk4 : key = "intent"
  · rw [if_pos hk4]; cases v <;> exact ⟨rfl, rfl⟩
  rw [if_neg hk4]
  by_cases hk5 : key = "status"
  · rw [if_pos hk5]; cases v <;> exact ⟨rfl, rfl⟩
  rw [if_neg hk5]
  by_cases hk6 : key = "amount"
  · rw [if_pos hk6]; cases v <;> exact ⟨rfl, rfl⟩
  rw [if_neg hk6]
  by_cases hk7 : key = "currency"
  · rw [if_pos hk7]; cases v <;> exact ⟨rfl, rfl⟩
  rw [if_neg hk7]
  by_cases hk8 : key = "description"
  · rw [if_pos hk8]; cases v <;> exact ⟨rfl, rfl⟩
  rw [if_neg hk8]
  by_cases hk9 : key = "reference_id"
  · rw [if_pos hk9]; cases v <;> exact ⟨rfl, rfl⟩
  rw [if_neg hk9]
  by_cases hk10 : key = "return_url"
  · rw [if_pos hk10]; cases v <;> exact ⟨rfl, rfl⟩
  rw [if_neg hk10]
  by_cases hk11 : key = "cancel_url"
  · rw [if_pos hk11]; cases v <;> exact ⟨rfl, rfl⟩
  rw [if_neg hk11]
  by_cases hk12 : key = "approval_url"
  · rw [if_pos hk12]; cases v <;> exact ⟨rfl, rfl⟩
  rw [if_neg hk12]
  by_cases hk13 : key = "approved_at"
  · rw [if_pos hk13]; cases v <;> exact ⟨rfl, rfl⟩
  rw [if_neg hk13]
  by_cases hk14 : key = "paypal_response"
  · rw [if_pos hk14]; cases v <;> exact ⟨rfl, rfl⟩
  rw [if_neg hk14]
  by_cases hk15 : key = "is_active"
  · rw [if_pos hk15]; cases v <;> exact ⟨rfl, rfl⟩
  rw [if_neg hk15]
  by_cases hk16 : key = "created_at"
  · rw [if_pos hk16]; cases v <;> exact ⟨rfl, rfl⟩
  rw [if_neg hk16]
  by_cases hk17 : key = "updated_at"
  · rw [if_pos hk17]; cases v <;> exact ⟨rfl, rfl⟩
  rw [if_neg hk17]
  exact ⟨rfl, rfl⟩

theorem OrderRepository.applyUpdate_preserves_identity (d : List (String × FieldVal))
    (o : Order) :
    (OrderRepository.applyUpdate o d).id = o.id ∧
      (OrderRepository.applyUpdate o d).paypal_order_id = o.paypal_order_id := by
  induction d generalizing o with
  | nil => exact ⟨rfl, rfl⟩
  | cons kv t ih =>
    have hstep : OrderRepository.applyUpdate o (kv :: t) =
        OrderRepository.applyUpdate
          (if Order.hasField kv.1 && !(kv.1 == "id") && !(kv.1 == "paypal_order_id")
            then o.setField kv.1 kv.2 else o) t := rfl
    rw [hstep]
    by_cases hc : (Order.hasField kv.1 && !(kv.1 == "id") && !(kv.1 == "paypal_order_id")) = true
    · rw [if_pos hc]
      simp only [Bool.and_eq_true, Bool.not_eq_true', beq_eq_false_iff_ne] at hc
      have hpres := Order.setField_preserves_identity o kv.1 kv.2 hc.1.2 hc.2
      have := ih (o.setField kv.1 kv.2)
      exact ⟨this.1.trans hpres.1, this.2.trans hpres.2⟩
    · rw [if_neg hc]
      exact ih o

theorem updateFirst_get? (p : Order → Bool) (f : Order → Order)
    (hf : ∀ x, (f x).id = x.id ∧ (f x).paypal_order_id = x.paypal_order_id)
    (l : List Order) (i : ℕ) :
    (((updateFirst p f l).2.get? i).map fun o => (o.id, o.paypal_order_id)) =
      ((l.get? i).map fun o => (o.id, o.paypal_order_id)) := by
  induction l generalizing i with
  | nil => rfl
  | cons x t ih =>
    unfold updateFirst
    by_cases hp : p x
    · rw [if_pos hp]
      cases i with
      | zero => simp [(hf x).1, (hf x).2]
      | succ n => rfl
    · rw [if_neg hp]
      cases i with
      | zero => rfl
      | succ n => simpa using ih n

/-! ### Claim theorems -/

/-- C5: for every sequence of field-level updates applied through the order
store (`OrderRepository.update` and `OrderRepository.update_by_paypal_id`, as
used by the capture and sync flows), every stored Order's surrogate `id` and
provider `paypal_order_id` after the sequence equal their values before it —
the update loops skip those two keys even when the update data names them. -/
theorem C5_identity_immutability :
    ∀ (db : Database) (ops : List UpdateOp) (i : ℕ),
      (((applyUpdateOps db ops).orders.get? i).map fun o => (o.id, o.paypal_order_id)) =
        ((db.orders.get? i).map fun o => (o.id, o.paypal_order_id)) := by
  intro db ops
  induction ops generalizing db with
  | nil => intro i; rfl
  | cons op t ih =>
    intro i
    have hstep : applyUpdateOps db (op :: t) = applyUpdateOps (applyUpdateOp db op) t := rfl
    rw [hstep, ih (applyUpdateOp db op) i]
    cases op with
    | byId oid d now =>
      exact updateFirst_get? (fun o => o.id == oid)
        (fun o => { OrderRepository.applyUpdate o d with updated_at := some now })
        (fun x => ⟨(OrderRepository.applyUpdate_preserves_identity d x).1,
                   (OrderRepository.applyUpdate_preserves_identity d x).2⟩)
        db.orders i
    | byPaypalId pid d now =>
      exact updateFirst_get? (fun o => o.paypal_order_id == pid)
        (fun o => { OrderRepository.applyUpdate o d with updated_at := some now })
        (fun x => ⟨(OrderRepository.applyUpdate_preserves_identity d x).1,
                   (OrderRepository.applyUpdate_preserves_identity d x).2⟩)
        db.orders i

/-- C3: `OrderService.capture_order` raises before contacting any provider —
the helper `self._make_paypal_request` it invokes is not defined anywhere in
the class or codebase, so every call yields `AttributeError`, no call ever
returns a `CaptureResponse`, and the local order store is never touched. -/
theorem C3_capture_always_raises :
    ∀ (db : Database) (order_id : String) (capture_request : Option OrderCaptureRequest),
      OrderService.capture_order db order_id capture_request =
          (.error (.attributeError "_make_paypal_request"), db) ∧
        (¬ ∃ (r : CaptureResponse) (db' : Database),
          OrderService.capture_order db order_id capture_request = (.ok r, db')) := by
  intro db oid cr
  refine ⟨rfl, ?_⟩
  rintro ⟨r, db', h⟩
  rw [show OrderService.capture_order db oid cr =
    (.error (.attributeError "_make_paypal_request"), db) from rfl] at h
  exact absurd (congrArg Prod.fst h) (by simp)

/-- Concrete store for the C2 evaluation: one approved order. -/
def C2_db : Database :=
  { orders := [{ id := 1, paypal_order_id := "5O190127TN364715T",
                 status := "APPROVED", amount := 1999/100, created_at := 0 }] }

/-- C2: evaluating `OrderService.capture_order` at the failing input — an
approved order for which the provider would report a capture of 19.99 USD,
COMPLETED, final — shows the call raising
`AttributeError("_make_paypal_request")` with the store unchanged, instead of
returning the claimed `CaptureResponse`. -/
theorem C2_capture_raises_at_failing_input :
    OrderService.capture_order C2_db "5O190127TN364715T"
        (some { note_to_payer := none, final_capture := true }) =
      (.error (.attributeError "_make_paypal_request"), C2_db) := rfl

/-- C1: if the provider create call fails, `OrderService.create_order`
re-raises the same exception and the order store is unchanged — no local
Order row is written for that attempt; moreover every persistence event in
the call's trace is preceded by the provider-call event (in fact the trace
never contains a persistence event). -/
theorem C1_create_atomicity :
    ∀ (db : Database) (req : OrderCreateRequest)
      (paypal_create : OrderCreateBody → Except PyErr OrderCreateResponse) (e : PyErr),
      (paypal_create (OrderService.build_create_body req) = .error e →
        OrderService.create_order db req paypal_create = (.error e, db, [.providerCreate])) ∧
      (∀ i, (OrderService.create_order db req paypal_create).2.2.get? i = some .persistOrder →
        ∃ j, j < i ∧
          (OrderService.create_order db req paypal_create).2.2.get? j = some .providerCreate) := by
  intro db req pc e
  constructor
  · intro h
    unfold OrderService.create_order
    rw [h]
  · intro i hi
    exfalso
    unfold OrderService.create_order at hi
    cases hpc : pc (OrderService.build_create_body req) <;> rw [hpc] at hi <;>
      cases i <;> simp at hi

def C1_req : OrderCreateRequest :=
  { amount := { currency_code := "USD", value := 100 },
    return_url := "https://shop.example/return",
    cancel_url := "https://shop.example/cancel" }

def C1_db : Database := { orders := [] }

def C1_err : PyErr := PayPalCommunicationException "Error creando orden: timeout"

/-- Witness for C1 at a concrete failing provider call. -/
theorem C1_create_atomicity_witness :
    OrderService.create_order C1_db C1_req (fun _ => .error C1_err) =
      (.error C1_err, C1_db, [.providerCreate]) :=
  (C1_create_atomicity C1_db C1_req (fun _ => .error C1_err) C1_err).1 rfl

/-- C4: when a stored Order exists for the id (with a valid status/intent as
every row written by this system has), `get_order` with `sync_with_paypal`
requested does not raise even though the provider fetch step fails (here it
always does): the failure is swallowed, the store is unchanged, and the
returned response carries the order's unchanged stored status — identical to
the non-sync read. -/
theorem C4_sync_degrades_gracefully :
    ∀ (db : Database) (order_id : String) (o : Order) (st : OrderStatus) (it : OrderIntent),
      OrderRepository.get_by_paypal_order_id db order_id = some o →
      OrderStatus.parse o.status = some st →
      OrderIntent.parse o.intent = some it →
      OrderService.get_order db order_id true =
          (.ok (some (OrderService.response_of o st it)), db) ∧
        (OrderService.response_of o st it).status = st ∧
        OrderService.get_order db order_id true = OrderService.get_order db order_id false := by
  intro db oid o st it hfind hst hit
  have hresp : OrderService.to_order_response o = .ok (OrderService.response_of o st it) := by
    unfold OrderService.to_order_response
    rw [hst, hit]
  refine ⟨?_, rfl, ?_⟩ <;>
    simp [OrderService.get_order, hfind, OrderService.sync_step, hresp]

def C4_order : Order :=
  { id := 1, paypal_order_id := "5O190127TN364715T", status := "APPROVED",
    amount := 100, created_at := 3 }

def C4_db : Database := { orders := [C4_order] }

/-- Witness for C4 at a concrete approved order. -/
theorem C4_sync_degrades_gracefully_witness :
    OrderService.get_order C4_db "5O190127TN364715T" true =
        (.ok (some (OrderService.response_of C4_order .APPROVED .CAPTURE)), C4_db) ∧
      (OrderService.response_of C4_order .APPROVED .CAPTURE).status = .APPROVED ∧
      OrderService.get_order C4_db "5O190127TN364715T" true =
        OrderService.get_order C4_db "5O190127TN364715T" false :=
  C4_sync_degrades_gracefully C4_db "5O190127TN364715T" C4_order .APPROVED .CAPTURE
    rfl rfl rfl

/-- C7 counterexample: constructing an `AmountRequest` with value `0` fails
with a pydantic `ValidationError`, which is not `InvalidAmountError`
(`InvalidAmountException`) — that exception type exists but is never
raised. -/
theorem C7_counterexample :
    AmountRequest.validate "USD" 0 =
        .error (.validationError "value: ensure this value is greater than 0") ∧
      PyErr.validationError "value: ensure this value is greater than 0" ≠
        InvalidAmountException 0 := by
  refine ⟨rfl, ?_⟩
  intro h
  exact PyErr.noConfusion h

/-- C7 amended: for all amounts `a ≤ 0`, constructing an `AmountRequest` with
value `a` fails with a pydantic `ValidationError` (not `InvalidAmountError`,
which is defined but never raised); strictly positive values are accepted. -/
theorem C7_amount_positivity_amended :
    ∀ (c : String) (a : ℚ),
      (a ≤ 0 → AmountRequest.validate c a =
        .error (.validationError "value: ensure this value is greater than 0")) ∧
      (0 < a → AmountRequest.validate c a = .ok { currency_code := c, value := a }) := by
  intro c a
  constructor
  · intro h
    unfold AmountRequest.validate
    rw [if_neg (not_lt.mpr h)]
  · intro h
    unfold AmountRequest.validate
    rw [if_pos h]

/-- Witness for C7 at value 0 (rejected) and value 5 (accepted). -/
theorem C7_amount_positivity_amended_witness :
    AmountRequest.validate "USD" 0 =
        .error (.validationError "value: ensure this value is greater than 0") ∧
      AmountRequest.validate "USD" 5 = .ok { currency_code := "USD", value := 5 } :=
  ⟨(C7_amount_positivity_amended "USD" 0).1 (by norm_num),
   (C7_amount_positivity_amended "USD" 5).2 (by norm_num)⟩

def C9_sdk_ok : OrderCreateResponse :=
  { order_id := "8XU61884JD5577030", status := .CREATED }

def C9_request : VaultPaymentRequest :=
  { payment_method_id := "8kk84152xy196613m", amount := "19.99",
    currency := "USD", description := "Cargo de vault" }

/-- C9 counterexample: at a concrete successful provider create through the
with-vault-token endpoint, the handler returns HTTP 500 ("Error interno del
servidor") — the fabricated placeholder body is never returned to the
caller. -/
theorem C9_counterexample :
    endpoint.create_order_with_vault_token C9_request (.ok C9_sdk_ok) =
      .httpError 500 "Error interno del servidor" := rfl

/-- C9 amended: for every successful provider create through the
with-vault-token endpoint, the handler constructs a locally-fabricated
placeholder body with hard-coded id "123" and status "CREATED" that discards
the provider's order id and status — but it then crashes reading `.id` off
that plain dict, so the endpoint answers HTTP 500 and the placeholder (like
the real provider result) is never returned. -/
theorem C9_vault_token_placeholder_amended :
    ∀ (req : VaultPaymentRequest) (r : OrderCreateResponse),
      (create_order_with_vault_token_placeholder req).id = "123" ∧
      (create_order_with_vault_token_placeholder req).status = "CREATED" ∧
      endpoint.create_order_with_vault_token req (.ok r) =
        .httpError 500 "Error interno del servidor" :=
  fun _ _ => ⟨rfl, rfl, rfl⟩

/-- A provider capture payload whose `amount` is missing its
`currency_code` attribute — the malformed sub-structure of the C6
counterexample. -/
def C6_capture : SdkCapture :=
  { status := .given (some "COMPLETED")
    status_details := .absent
    id := .given (some "2GG903861T242254G")
    amount := .given (some { currency_code := .absent, value := .given (some "19.99") })
    invoice_id := .absent
    custom_id := .absent
    network_transaction_reference := .absent
    seller_protection := .given none
    final_capture := .given (some true)
    seller_receivable_breakdown := .given none
    disbursement_mode := .absent
    links := .given none
    processor_response := .absent
    create_time := .given (some "2024-01-01T00:00:00Z")
    update_time := .absent }

/-- A provider payload with both mandatory top-level fields present
(`id="5O190127TN364715T"`, `status="COMPLETED"`) but a malformed capture
sub-structure. -/
def C6_payload : SdkOrder :=
  { id := .given (some "5O190127TN364715T")
    status := .given (some "COMPLETED")
    payer := .given none
    payment_source := .given none
    purchase_units := .given
      (some [{ payments := .given (some { captures := .given (some [C6_capture]) }) }])
    links := .given (some [])
    create_time := .given none }

/-- A provider payload with the mandatory top-level `id` absent. -/
def C6_payload_missing_id : SdkOrder :=
  { id := .absent
    status := .given (some "CREATED")
    payer := .absent
    payment_source := .absent
    purchase_units := .absent
    links := .absent
    create_time := .absent }

/-- C6 counterexample: on a payload whose top-level status is "COMPLETED" but
whose capture sub-structure is malformed, the translator's best-effort result
reports status CREATED — the top-level status is not preserved; and on a
payload missing the mandatory top-level id, the translation does not fail
with `MalformedProviderResponseError` (no such type exists in the codebase):
it succeeds with `order_id="unknown"`. -/
theorem C6_counterexample :
    PaypalOrdersService.process_order_response C6_payload =
        .ok (PaypalOrdersService.minimalResponse "5O190127TN364715T") ∧
      (PaypalOrdersService.minimalResponse "5O190127TN364715T").status ≠
        OrderStatus.COMPLETED ∧
      PaypalOrdersService.process_order_response C6_payload_missing_id =
        .ok (PaypalOrdersService.minimalResponse "unknown") := by
  refine ⟨rfl, ?_, rfl⟩
  intro h
  exact OrderStatus.noConfusion h

/-- C6 amended: the translator never raises a
`MalformedProviderResponseError` (none exists); whenever processing of the
payload fails — including when the mandatory top-level id or status is
absent or malformed — the `except` branch returns a best-effort result whose
order id is the top-level id when the attribute is present (and "unknown"
when it is absent), whose status is always CREATED rather than the payload's
top-level status, and with all other fields left unset. -/
theorem C6_translator_fallback_amended :
    ∀ (r : SdkOrder) (e : PyErr),
      PaypalOrdersService.tryProcess r = .error e →
      (∀ s, r.id = .given (some s) →
        PaypalOrdersService.process_order_response r =
          .ok (PaypalOrdersService.minimalResponse s)) ∧
      (r.id = .absent →
        PaypalOrdersService.process_order_response r =
          .ok (PaypalOrdersService.minimalResponse "unknown")) := by
  intro r e h
  constructor
  · intro s hs
    unfold PaypalOrdersService.process_order_response
    rw [h, hs]
    rfl
  · intro hs
    unfold PaypalOrdersService.process_order_response
    rw [h, hs]
    rfl

/-- Witness for the amended C6 at the concrete malformed-capture payload. -/
theorem C6_translator_fallback_amended_witness :
    PaypalOrdersService.tryProcess C6_payload =
        .error (.attributeError "currency_code") ∧
      PaypalOrdersService.process_order_response C6_payload =
        .ok (PaypalOrdersService.minimalResponse "5O190127TN364715T") :=
  ⟨rfl, (C6_translator_fallback_amended C6_payload (.attributeError "currency_code")
    rfl).1 "5O190127TN364715T" rfl⟩

theorem mem_insertByCreatedDesc {x a : Order} {l : List Order}
    (h : x ∈ insertByCreatedDesc a l) : x = a ∨ x ∈ l := by
  induction l with
  | nil =>
    unfold insertByCreatedDesc at h
    exact Or.inl (List.mem_singleton.mp h)
  | cons b t ih =>
    unfold insertByCreatedDesc at h
    split at h
    · rcases List.mem_cons.mp h with rfl | h'
      · exact Or.inl rfl
      · exact Or.inr h'
    · rcases List.mem_cons.mp h with rfl | h'
      · exact Or.inr (List.mem_cons_self _ _)
      · rcases ih h' with rfl | h''
        · exact Or.inl rfl
        · exact Or.inr (List.mem_cons_of_mem _ h'')

theorem mem_sortByCreatedDesc {x : Order} {l : List Order}
    (h : x ∈ sortByCreatedDesc l) : x ∈ l := by
  induction l with
  | nil => exact absurd h (List.not_mem_nil x)
  | cons a t ih =>
    have hs : sortByCreatedDesc (a :: t) = insertByCreatedDesc a (sortByCreatedDesc t) := rfl
    rw [hs] at h
    rcases mem_insertByCreatedDesc h with rfl | h'
    · exact List.mem_cons_self _ _
    · exact List.mem_cons_of_mem _ (ih h')

theorem mem_of_filterIf {l : List Order} {p : Order → Bool} {c : Bool} {o : Order}
    (h : o ∈ if c then l.filter p else l) : o ∈ l := by
  split at h
  · exact (List.mem_filter.mp h).1
  · exact h

/-- Rows returned by `OrderRepository.list_orders` come from the store, and
respect the `is_active` filter when one is requested. -/
theorem mem_repo_list_orders (db : Database) (skip limit : ℕ) (cid : Option ℕ)
    (pid st int : Option String) (act : Option Bool) (o : Order)
    (h : o ∈ (OrderRepository.list_orders db skip limit cid pid st int act).1) :
    o ∈ db.orders ∧ ∀ b, act = some b → o.is_active = b := by
  unfold OrderRepository.list_orders at h
  cases act with
  | some b =>
    dsimp only at h
    replace h := List.drop_subset _ _ (List.take_subset _ _ h)
    have hf := List.mem_filter.mp h
    have h2 := mem_of_filterIf (mem_of_filterIf (mem_of_filterIf hf.1))
    have h1 : o ∈ sortByCreatedDesc db.orders := by
      cases cid with
      | some c => exact (List.mem_filter.mp h2).1
      | none => exact h2
    refine ⟨mem_sortByCreatedDesc h1, ?_⟩
    intro b' hb'
    cases hb'
    simpa using hf.2
  | none =>
    dsimp only at h
    replace h := List.drop_subset _ _ (List.take_subset _ _ h)
    have h2 := mem_of_filterIf (mem_of_filterIf (mem_of_filterIf h))
    have h1 : o ∈ sortByCreatedDesc db.orders := by
      cases cid with
      | some c => exact (List.mem_filter.mp h2).1
      | none => exact h2
    exact ⟨mem_sortByCreatedDesc h1, fun b' hb' => by cases hb'⟩

theorem OrderService.to_order_response_id (x : Order) (r : OrderResponse)
    (h : OrderService.to_order_response x = .ok r) : r.id = x.paypal_order_id := by
  unfold OrderService.to_order_response at h
  split at h
  · injection h with h2
    rw [← h2]
    rfl
  · simp at h
  · simp at h

theorem mapM_to_order_response_ok (l : List Order)
    (h : ∀ o ∈ l, (OrderStatus.parse o.status).isSome ∧ (OrderIntent.parse o.intent).isSome) :
    ∃ out, l.mapM OrderService.to_order_response = .ok out ∧
      out.map (·.id) = l.map (·.paypal_order_id) := by
  induction l with
  | nil => exact ⟨[], rfl, rfl⟩
  | cons x t ih =>
    obtain ⟨out, hout, hmap⟩ := ih fun o ho => h o (List.mem_cons_of_mem x ho)
    have hx := h x (List.mem_cons_self x t)
    obtain ⟨st, hst⟩ := Option.isSome_iff_exists.mp hx.1
    obtain ⟨it, hit⟩ := Option.isSome_iff_exists.mp hx.2
    have hxresp : OrderService.to_order_response x =
        .ok (OrderService.response_of x st it) := by
      unfold OrderService.to_order_response
      rw [hst, hit]
    refine ⟨OrderService.response_of x st it :: out, ?_, ?_⟩
    · rw [List.mapM_cons, hxresp, hout]
      rfl
    · simp only [List.map_cons, hmap]
      rfl

/-- C8: for every `page ≥ 1` and `page_size ≥ 1` (over any store whose rows
carry valid enum statuses/intents, as every row written by this system does),
`OrderService.list_orders` queries the store with
`skip = (page-1) * page_size` and `limit = page_size` — the returned rows are
exactly those of `OrderRepository.list_orders` at those arguments — and
reports `total_pages = total_items ⌈/⌉ page_size` (ceiling division, computed
as `(total + page_size - 1) / page_size`); in particular `95 ⌈/⌉ 10 = 10` and
`100 ⌈/⌉ 10 = 10`. -/
theorem C8_pagination_math :
    ∀ (db : Database) (page page_size : ℕ) (customer_id : Option ℕ)
      (status : Option String),
      1 ≤ page → 1 ≤ page_size →
      (∀ o ∈ db.orders,
        (OrderStatus.parse o.status).isSome ∧ (OrderIntent.parse o.intent).isSome) →
      ∃ resp, OrderService.list_orders db page page_size customer_id status = .ok resp ∧
        resp.orders.map (fun r => r.id) =
          ((OrderRepository.list_orders db ((page - 1) * page_size) page_size
            customer_id none status none (some true)).1.map
              fun o => o.paypal_order_id) ∧
        resp.total_items = (OrderRepository.list_orders db ((page - 1) * page_size)
          page_size customer_id none status none (some true)).2 ∧
        resp.total_pages = resp.total_items ⌈/⌉ page_size ∧
        resp.current_page = page ∧ resp.page_size = page_size ∧
        (95 : ℕ) ⌈/⌉ 10 = 10 ∧ (100 : ℕ) ⌈/⌉ 10 = 10 := by
  intro db page ps cid st _hp _hps hvalid
  have hsub : ∀ o ∈ (OrderRepository.list_orders db ((page - 1) * ps) ps cid none st
      none (some true)).1,
      (OrderStatus.parse o.status).isSome ∧ (OrderIntent.parse o.intent).isSome :=
    fun o ho =>
      hvalid o (mem_repo_list_orders db ((page - 1) * ps) ps cid none st none
        (some true) o ho).1
  obtain ⟨out, hout, hmap⟩ := mapM_to_order_response_ok _ hsub
  refine ⟨{ orders := out
            total_items := (OrderRepository.list_orders db ((page - 1) * ps) ps cid
              none st none (some true)).2
            total_pages := ((OrderRepository.list_orders db ((page - 1) * ps) ps cid
              none st none (some true)).2 + ps - 1) / ps
            current_page := page
            page_size := ps }, ?_, hmap, rfl, ?_, rfl, rfl, ?_, ?_⟩
  · unfold OrderService.list_orders
    dsimp only
    rw [hout]
    rfl
  · rw [Nat.ceilDiv_eq_add_pred_div]
  · rw [Nat.ceilDiv_eq_add_pred_div]
  · rw [Nat.ceilDiv_eq_add_pred_div]

def C8_db : Database :=
  { orders := [
      { id := 1, paypal_order_id := "5O190127TN364715T", status := "CREATED",
        amount := 100, created_at := 2 },
      { id := 2, paypal_order_id := "8XU61884JD5577030", status := "APPROVED",
        amount := 50, created_at := 1 }] }

/-- Witness for C8 on a concrete two-order store at page 1, page size 10. -/
theorem C8_pagination_math_witness :
    ∃ resp, OrderService.list_orders C8_db 1 10 none none = .ok resp ∧
      resp.orders.map (fun r => r.id) =
        ((OrderRepository.list_orders C8_db ((1 - 1) * 10) 10 none none none none
          (some true)).1.map fun o => o.paypal_order_id) ∧
      resp.total_items = (OrderRepository.list_orders C8_db ((1 - 1) * 10) 10 none
        none none none (some true)).2 ∧
      resp.total_pages = resp.total_items ⌈/⌉ 10 ∧
      resp.current_page = 1 ∧ resp.page_size = 10 ∧
      (95 : ℕ) ⌈/⌉ 10 = 10 ∧ (100 : ℕ) ⌈/⌉ 10 = 10 :=
  C8_pagination_math C8_db 1 10 none none (by decide) (by decide) (by decide)

theorem pairwise_key_eq {β : Type} (f : Order → β) {l : List Order}
    (h : l.Pairwise fun a b => f a ≠ f b) :
    ∀ a ∈ l, ∀ b ∈ l, f a = f b → a = b := by
  induction l with
  | nil => intro a ha; exact absurd ha (List.not_mem_nil a)
  | cons x t ih =>
    rw [List.pairwise_cons] at h
    intro a ha b hb hf
    rcases List.mem_cons.mp ha with rfl | ha' <;> rcases List.mem_cons.mp hb with rfl | hb'
    · rfl
    · exact absurd hf (h.1 b hb')
    · exact absurd hf.symm (h.1 a ha')
    · exact ih h.2 a ha' b hb' hf

/-- With unique surrogate ids, rewriting the first id-match is rewriting every
id-match. -/
theorem updateFirst_eq_map_of_unique (f : Order → Order) (o : Order) (l : List Order)
    (hu : l.Pairwise fun a b => a.id ≠ b.id) (hm : o ∈ l) :
    (updateFirst (fun x => x.id == o.id) f l).2 =
      l.map fun x => if x.id == o.id then f x else x := by
  induction l with
  | nil => cases hm
  | cons x t ih =>
    rw [List.pairwise_cons] at hu
    by_cases hx : (x.id == o.id) = true
    · show (if x.id == o.id then (some (f x), f x :: t)
        else ((updateFirst (fun x => x.id == o.id) f t).1,
          x :: (updateFirst (fun x => x.id == o.id) f t).2)).2 = _
      rw [if_pos hx, List.map_cons, if_pos hx]
      have hrest : t.map (fun y => if y.id == o.id then f y else y) = t.map id := by
        apply List.map_congr_left
        intro y hy
        have hne := hu.1 y hy
        rw [beq_iff_eq] at hx
        rw [if_neg]
        · rfl
        · rw [beq_iff_eq]
          intro hyo
          exact hne (hx.trans hyo.symm)
      rw [hrest, List.map_id]
    · show (if x.id == o.id then (some (f x), f x :: t)
        else ((updateFirst (fun x => x.id == o.id) f t).1,
          x :: (updateFirst (fun x => x.id == o.id) f t).2)).2 = _
      rw [if_neg hx, List.map_cons, if_neg hx]
      have hm' : o ∈ t := by
        rcases List.mem_cons.mp hm with rfl | h'
        · exact absurd (by simp) hx
        · exact h'
      rw [ih hu.2 hm']

/-- With unique provider ids and a ppid-preserving rewrite, the point lookup
on the rewritten store finds the rewritten row. -/
theorem find_ppid_map (l : List Order) (o : Order) (g : Order → Order)
    (hg : ∀ x, (g x).paypal_order_id = x.paypal_order_id)
    (hu : l.Pairwise fun a b => a.paypal_order_id ≠ b.paypal_order_id)
    (hm : o ∈ l) :
    (l.map g).find? (fun x => x.paypal_order_id == o.paypal_order_id) = some (g o) := by
  induction l with
  | nil => cases hm
  | cons x t ih =>
    rw [List.pairwise_cons] at hu
    rw [List.map_cons]
    by_cases hx : x.paypal_order_id = o.paypal_order_id
    · have hxo : x = o := by
        rcases List.mem_cons.mp hm with rfl | h'
        · rfl
        · exact absurd hx (hu.1 o h')
      subst hxo
      rw [List.find?_cons_of_pos]
      rw [hg x]
      simp
    · have hm' : o ∈ t := by
        rcases List.mem_cons.mp hm with rfl | h'
        · exact absurd rfl hx
        · exact h'
      rw [List.find?_cons_of_neg, ih hu.2 hm']
      rw [hg x]
      simp [hx]

theorem mapM_to_order_response_mem {l : List Order} {out : List OrderResponse}
    (h : l.mapM OrderService.to_order_response = .ok out) :
    ∀ r ∈ out, ∃ x ∈ l, OrderService.to_order_response x = .ok r := by
  induction l generalizing out with
  | nil =>
    intro r hr
    rw [List.mapM_nil] at h
    have : out = [] := by
      have h' : (Except.ok [] : Except PyErr (List OrderResponse)) = .ok out := h
      injection h' with h''
      exact h''.symm
    subst this
    exact absurd hr (List.not_mem_nil r)
  | cons x t ih =>
    rw [List.mapM_cons] at h
    cases hx : OrderService.to_order_response x with
    | error e =>
      rw [hx] at h
      exact Except.noConfusion h
    | ok y =>
      rw [hx] at h
      cases ht : t.mapM OrderService.to_order_response with
      | error e =>
        rw [ht] at h
        exact Except.noConfusion h
      | ok ys =>
        rw [ht] at h
        have hout : out = y :: ys := by
          have h' : (Except.ok (y :: ys) : Except PyErr (List OrderResponse)) = .ok out := h
          injection h' with h''
          exact h''.symm
        subst hout
        intro r hr
        rcases List.mem_cons.mp hr with rfl | hr'
        · exact ⟨x, List.mem_cons_self x t, hx⟩
        · obtain ⟨z, hz, hzr⟩ := ih ht r hr'
          exact ⟨z, List.mem_cons_of_mem x hz, hzr⟩

/-- C10: soft-deleted orders stay visible to point lookups but not to
listing.  Over a store with unique surrogate and provider ids (as the table's
primary-key and unique constraints guarantee), after
`OrderRepository.soft_delete` of an order,
`OrderRepository.get_by_paypal_order_id` still returns the (now inactive)
row — hence `OrderService.get_order` still returns the order — while
`OrderService.list_orders`, which always filters with `is_active=true`,
never includes it. -/
theorem C10_soft_delete_visibility :
    ∀ (db : Database) (o : Order) (now : ℕ) (st : OrderStatus) (it : OrderIntent),
      o ∈ db.orders →
      db.orders.Pairwise (fun a b => a.id ≠ b.id) →
      db.orders.Pairwise (fun a b => a.paypal_order_id ≠ b.paypal_order_id) →
      OrderStatus.parse o.status = some st →
      OrderIntent.parse o.intent = some it →
      (OrderRepository.get_by_paypal_order_id
          (OrderRepository.soft_delete db o.id now).2 o.paypal_order_id =
        some { o with is_active := false, updated_at := some now }) ∧
      ((OrderService.get_order (OrderRepository.soft_delete db o.id now).2
          o.paypal_order_id false).1 =
        .ok (some (OrderService.response_of
          { o with is_active := false, updated_at := some now } st it))) ∧
      (∀ (page page_size : ℕ) (cid : Option ℕ) (stf : Option String)
        (resp : OrderListResponse),
        OrderService.list_orders (OrderRepository.soft_delete db o.id now).2
            page page_size cid stf = .ok resp →
        ∀ r ∈ resp.orders, r.id ≠ o.paypal_order_id) := by
  intro db o now st it hmem hid hpid hst hit
  have horders : (OrderRepository.soft_delete db o.id now).2.orders =
      db.orders.map fun x =>
        if x.id == o.id then { x with is_active := false, updated_at := some now }
        else x :=
    updateFirst_eq_map_of_unique
      (fun x => { x with is_active := false, updated_at := some now }) o db.orders
      hid hmem
  have hg : ∀ x : Order,
      ((if x.id == o.id then { x with is_active := false, updated_at := some now }
        else x) : Order).paypal_order_id = x.paypal_order_id := by
    intro x
    by_cases hx : (x.id == o.id) = true
    · rw [if_pos hx]
    · rw [if_neg hx]
  have hfind : OrderRepository.get_by_paypal_order_id
      (OrderRepository.soft_delete db o.id now).2 o.paypal_order_id =
      some { o with is_active := false, updated_at := some now } := by
    unfold OrderRepository.get_by_paypal_order_id
    rw [horders]
    have hfo := find_ppid_map db.orders o _ hg hpid hmem
    rw [hfo]
    rw [if_pos (beq_self_eq_true o.id)]
  refine ⟨hfind, ?_, ?_⟩
  · have hresp : OrderService.to_order_response
        { o with is_active := false, updated_at := some now } =
        .ok (OrderService.response_of
          { o with is_active := false, updated_at := some now } st it) := by
      unfold OrderService.to_order_response
      have hst' : OrderStatus.parse
          ({ o with is_active := false, updated_at := some now } : Order).status =
          some st := hst
      have hit' : OrderIntent.parse
          ({ o with is_active := false, updated_at := some now } : Order).intent =
          some it := hit
      rw [hst', hit']
    simp [OrderService.get_order, hfind, hresp]
  · intro page ps cid stf resp hserv r hr hrid
    unfold OrderService.list_orders at hserv
    dsimp only at hserv
    cases hmm : (OrderRepository.list_orders (OrderRepository.soft_delete db o.id now).2
        ((page - 1) * ps) ps cid none stf none (some true)).1.mapM
        OrderService.to_order_response with
    | error e =>
      rw [hmm] at hserv
      exact Except.noConfusion hserv
    | ok out =>
      rw [hmm] at hserv
      have hout : resp.orders = out := by
        injection hserv with h''
        rw [← h'']
      obtain ⟨x, hx, hxr⟩ := mapM_to_order_response_mem hmm r (hout ▸ hr)
      have hxid : r.id = x.paypal_order_id := OrderService.to_order_response_id x r hxr
      have hxdb := mem_repo_list_orders _ _ _ _ _ _ _ _ _ hx
      have hxactive : x.is_active = true := hxdb.2 true rfl
      have hxmem := hxdb.1
      rw [horders] at hxmem
      obtain ⟨y, hy, hyx⟩ := List.mem_map.mp hxmem
      by_cases hyo : (y.id == o.id) = true
      · rw [if_pos hyo] at hyx
        rw [← hyx] at hxactive
        exact Bool.noConfusion hxactive
      · rw [if_neg hyo] at hyx
        subst hyx
        have hyppid : y.paypal_order_id = o.paypal_order_id := hrid ▸ hxid.symm ▸ rfl
        have := pairwise_key_eq (fun x => x.paypal_order_id) hpid y hy o hmem hyppid
        rw [this] at hyo
        exact hyo (beq_self_eq_true o.id)

def C10_order : Order :=
  { id := 1, paypal_order_id := "5O190127TN364715T", status := "APPROVED",
    amount := 100, created_at := 9 }

def C10_db : Database :=
  { orders := [C10_order,
      { id := 2, paypal_order_id := "8XU61884JD5577030", status := "CREATED",
        amount := 50, created_at := 8 }] }

/-- Witness for C10 on a concrete two-order store. -/
theorem C10_soft_delete_visibility_witness :
    (OrderRepository.get_by_paypal_order_id
        (OrderRepository.soft_delete C10_db C10_order.id 7).2
        C10_order.paypal_order_id =
      some { C10_order with is_active := false, updated_at := some 7 }) ∧
    ((OrderService.get_order (OrderRepository.soft_delete C10_db C10_order.id 7).2
        C10_order.paypal_order_id false).1 =
      .ok (some (OrderService.response_of
        { C10_order with is_active := false, updated_at := some 7 }
        .APPROVED .CAPTURE))) ∧
    (∀ (page page_size : ℕ) (cid : Option ℕ) (stf : Option String)
      (resp : OrderListResponse),
      OrderService.list_orders (OrderRepository.soft_delete C10_db C10_order.id 7).2
          page page_size cid stf = .ok resp →
      ∀ r ∈ resp.orders, r.id ≠ C10_order.paypal_order_id) :=
  C10_soft_delete_visibility C10_db C10_order 7 .APPROVED .CAPTURE
    (by decide) (by decide) (by decide) rfl rfl

def C3_db : Database := { orders := [] }

/-- Witness for C3 at a concrete call. -/
theorem C3_capture_always_raises_witness :
    OrderService.capture_order C3_db "9AB12345CD678901E" none =
        (.error (.attributeError "_make_paypal_request"), C3_db) ∧
      ¬ ∃ (r : CaptureResponse) (db' : Database),
        OrderService.capture_order C3_db "9AB12345CD678901E" none = (.ok r, db') :=
  C3_capture_always_raises C3_db "9AB12345CD678901E" none

/-- Witness for the amended C9 at a concrete request and provider success. -/
theorem C9_vault_token_placeholder_amended_witness :
    (create_order_with_vault_token_placeholder C9_request).id = "123" ∧
      (create_order_with_vault_token_placeholder C9_request).status = "CREATED" ∧
      endpoint.create_order_with_vault_token C9_request (.ok C9_sdk_ok) =
        .httpError 500 "Error interno del servidor" :=
  C9_vault_token_placeholder_amended C9_request C9_sdk_ok
